import Mathlib

/-!
Verification development for the `websocket-edu` repository.

Shallow embedding of the core of the system: the sensor data model
(`models/sensor_reading.py`), the bounded-history data processor
(`data/data_processor.py`), the broadcast server's fanout operation
(`websocket/websocket_app.py`), and the sensor read path with the
temperature generator (`sensors/sensor_simulator.py`).

Python floats are modelled as rationals (`ℚ`), wall-clock times as
rationals, and Python dicts as association lists keyed by strings.
Random draws made inside generation algorithms are passed in explicitly
as parameters, with their admissible ranges stated as hypotheses of the
theorems.  `math.sin` is modelled by an explicit oracle value constrained
to `[-1, 1]`.
-/

/-! ### Association-list helpers (Python `dict`) -/

def alookup {α : Type} (m : List (String × α)) (k : String) : Option α :=
  match m with
  | [] => none
  | (k', v) :: rest => if k' = k then some v else alookup rest k

def aupdate {α : Type} (m : List (String × α)) (k : String) (v : α) :
    List (String × α) :=
  match m with
  | [] => [(k, v)]
  | (k', v') :: rest => if k' = k then (k, v) :: rest else (k', v') :: aupdate rest k v

def aremove {α : Type} (m : List (String × α)) (k : String) : List (String × α) :=
  m.filter (fun p => !(p.1 == k))

/-! ### Numeric helpers -/

/-- Python's `round(x, k)`: round to `k` decimal places.  (Python uses
round-half-to-even on binary floats; on the rational model the tie
convention is immaterial for every value arising in this development.) -/
def roundq (k : Nat) (x : ℚ) : ℚ := (round (x * (10 : ℚ) ^ k)) / (10 : ℚ) ^ k

def listMin : List ℚ → ℚ
  | [] => 0
  | x :: xs => xs.foldl min x

def listMax : List ℚ → ℚ
  | [] => 0
  | x :: xs => xs.foldl max x

/-- `statistics.mean` -/
def meanq (vs : List ℚ) : ℚ := vs.sum / (vs.length : ℚ)

def insertAsc (x : ℚ) : List ℚ → List ℚ
  | [] => [x]
  | y :: ys => if x ≤ y then x :: y :: ys else y :: insertAsc x ys

def sortAsc (vs : List ℚ) : List ℚ := vs.foldr insertAsc []

/-- `statistics.median`: middle of the sorted values, or the mean of the
two middle values for an even count. -/
def medianq (vs : List ℚ) : ℚ :=
  let sorted := sortAsc vs
  let n := vs.length
  if n % 2 = 1 then sorted.getD (n / 2) 0
  else (sorted.getD (n / 2 - 1) 0 + sorted.getD (n / 2) 0) / 2

/-- `statistics.variance` (sample variance, denominator `n - 1`). -/
def sampleVariance (vs : List ℚ) : ℚ :=
  let m := meanq vs
  (vs.map (fun v => (v - m) * (v - m))).sum / ((vs.length : ℚ) - 1)

/-- The last `m` elements of a list (insertion order preserved). -/
def lastN {α : Type} (m : Nat) (l : List α) : List α := l.drop (l.length - m)

/-- Append to a `collections.deque(maxlen := m)`: append on the right,
evicting from the left once capacity is reached. -/
def ringAppend {α : Type} (m : Nat) (buf : List α) (x : α) : List α :=
  (buf ++ [x]).drop (buf.length + 1 - m)

/-! ### Data model (`models/sensor_reading.py`) -/

inductive SensorStatus
  | active | inactive | error | maintenance
deriving DecidableEq, Repr

/-- `SensorStatus.value`: the string payload of the Python enum. -/
def SensorStatus.value : SensorStatus → String
  | .active => "active"
  | .inactive => "inactive"
  | .error => "error"
  | .maintenance => "maintenance"

inductive SensorType
  | temperature | humidity | motion | light | pressure | airQuality
deriving DecidableEq, Repr

/-- `SensorType.value`: the string payload of the Python enum. -/
def SensorType.value : SensorType → String
  | .temperature => "TemperatureSensor"
  | .humidity => "HumiditySensor"
  | .motion => "MotionSensor"
  | .light => "LightSensor"
  | .pressure => "PressureSensor"
  | .airQuality => "AirQualitySensor"

inductive AlertLevel
  | info | warning | critical
deriving DecidableEq, Repr

structure SensorReading where
  sensor_id : String
  sensor_type : SensorType
  value : ℚ
  unit : String
  status : SensorStatus
  timestamp : ℚ
  location : String
  name : String
  reading_count : Nat
  metadata : List (String × String)
deriving DecidableEq, Repr

/-- `SensorReading.is_numeric`: `float(self.value)` always succeeds since
`value` is a float (here a rational), so this is constantly true. -/
def SensorReading.is_numeric (_ : SensorReading) : Bool := true

structure AlertEvent where
  alert_id : String
  sensor_id : String
  alert_type : String
  level : AlertLevel
  message : String
  value : ℚ
  threshold : ℚ
  timestamp : ℚ
  acknowledged : Bool
  acknowledged_by : String
  acknowledged_at : Option ℚ
  resolved : Bool
  resolved_at : Option ℚ
  metadata : List (String × String)
deriving DecidableEq, Repr

/-! ### Data processor (`data/data_processor.py`) -/

/-- Per-sensor-type alert bounds; an absent key of the Python threshold
dict is `none`. -/
structure Thresholds where
  high : Option ℚ
  low : Option ℚ
deriving DecidableEq, Repr

/-- `DataProcessor._initialize_alert_thresholds` (keyed there by the
type-name string, which is exactly `SensorType.value`). -/
def defaultThresholds : SensorType → Thresholds
  | .temperature => { high := some 28, low := some 15 }
  | .humidity => { high := some 70, low := some 30 }
  | .light => { high := none, low := some 10 }
  | _ => { high := none, low := none }

/-- Metadata entry kept by `DataProcessor._update_sensor_metadata`. -/
structure MetaEntry where
  first_reading : ℚ
  sensor_type : String
  location : String
  name : String
  unit : String
  last_reading : ℚ
  total_readings : Nat
  status : String
deriving DecidableEq, Repr

/-- The statistics dict built by `DataProcessor.get_sensor_statistics`;
keys only conditionally present are `Option`s. -/
structure Stats where
  sensor_id : String
  total_readings : Nat
  active_readings : Nat
  min_value : ℚ
  max_value : ℚ
  average : ℚ
  median : ℚ
  latest_value : ℚ
  unit : String
  calculation_time : ℚ
  std_deviation : Option ℚ
  variance : Option ℚ
  trend : Option String
  trend_change : Option ℚ
deriving DecidableEq, Repr

structure ProcState where
  max_readings : Nat
  sensor_data : List (String × List SensorReading)
  stats_cache : List (String × Stats)
  cache_expiry : List (String × ℚ)
  cache_duration : ℚ
  sensor_metadata : List (String × MetaEntry)
  total_readings : Nat
  alerts : List AlertEvent
  alert_thresholds : SensorType → Thresholds

/-- `DataProcessor.__init__` (`_cache_duration = 30`). -/
def initProcessor (m : Nat) : ProcState :=
  { max_readings := m
    sensor_data := []
    stats_cache := []
    cache_expiry := []
    cache_duration := 30
    sensor_metadata := []
    total_readings := 0
    alerts := []
    alert_thresholds := defaultThresholds }

/-- One alert record as constructed inside `DataProcessor._check_alerts`.
`int(time.time())` is modelled by `⌊now⌋` (times are nonnegative, where
truncation and floor agree); numeric string formatting is `toString`. -/
def mkAlert (r : SensorReading) (kind dir : String) (thr now : ℚ) : AlertEvent :=
  { alert_id := r.sensor_id ++ "_" ++ toString (Rat.floor now)
    sensor_id := r.sensor_id
    alert_type := kind
    level := .warning
    message := r.sensor_type.value ++ " reading " ++ dir ++ " threshold: "
                ++ toString r.value ++ " " ++ r.unit
    value := r.value
    threshold := thr
    timestamp := now
    acknowledged := false
    acknowledged_by := ""
    acknowledged_at := none
    resolved := false
    resolved_at := none
    metadata := [] }

/-- `DataProcessor._check_alerts`: the list of alerts a reading raises.
The high bound and the low bound are checked independently and their
alerts concatenated. -/
def checkAlerts (tb : SensorType → Thresholds) (r : SensorReading) (now : ℚ) :
    List AlertEvent :=
  let th := tb r.sensor_type
  if (th.high.isNone && th.low.isNone) || !r.is_numeric then []
  else
    let highAlerts :=
      match th.high with
      | some hi => if hi < r.value then [mkAlert r "high_threshold" "above" hi now] else []
      | none => []
    let lowAlerts :=
      match th.low with
      | some lo => if r.value < lo then [mkAlert r "low_threshold" "below" lo now] else []
      | none => []
    highAlerts ++ lowAlerts

/-- `DataProcessor._update_sensor_metadata` (called after the ring append,
so `total_readings` is the ring length after the append). -/
def updateMeta (old : Option MetaEntry) (ringLen : Nat) (r : SensorReading) :
    MetaEntry :=
  let base : MetaEntry :=
    match old with
    | none =>
        { first_reading := r.timestamp
          sensor_type := r.sensor_type.value
          location := r.location
          name := r.name
          unit := r.unit
          last_reading := r.timestamp
          total_readings := 0
          status := "" }
    | some m => m
  { base with
      last_reading := r.timestamp
      total_readings := ringLen
      status := r.status.value }

/-- `DataProcessor.store_reading`: append to the sensor's ring (a
`defaultdict` entry is created on first access), update metadata,
invalidate that sensor's cache entry, bump the global counter, and run
alert evaluation.  The Python `try` never fails on this pure model, so
the returned flag is always `true`. -/
def store_reading (s : ProcState) (r : SensorReading) (now : ℚ) :
    Bool × ProcState :=
  let id := r.sensor_id
  let ring := (alookup s.sensor_data id).getD []
  let ring' := ringAppend s.max_readings ring r
  let data' := aupdate s.sensor_data id ring'
  let md' := aupdate s.sensor_metadata id
               (updateMeta (alookup s.sensor_metadata id) ring'.length r)
  let cachePair :=
    match alookup s.stats_cache id with
    | some _ => (aremove s.stats_cache id, aremove s.cache_expiry id)
    | none => (s.stats_cache, s.cache_expiry)
  let alerts' := s.alerts ++ checkAlerts s.alert_thresholds r now
  (true,
    { s with
        sensor_data := data'
        sensor_metadata := md'
        stats_cache := cachePair.1
        cache_expiry := cachePair.2
        total_readings := s.total_readings + 1
        alerts := alerts' })

/-- Fold `store_reading` over a list of (reading, store-time) pairs. -/
def storeAll (s : ProcState) (ps : List (SensorReading × ℚ)) : ProcState :=
  ps.foldl (fun st p => (store_reading st p.1 p.2).2) s

/-- `DataProcessor.get_sensor_history`: most-recent-first snapshot,
truncated only when `limit` is truthy (so `None` and `0` both mean "no
truncation").  Read-only: the state is returned unchanged on every path. -/
def get_sensor_history (s : ProcState) (id : String) (limit : Option Nat) :
    List SensorReading × ProcState :=
  match alookup s.sensor_data id with
  | none => ([], s)
  | some rs =>
      let rev := rs.reverse
      let out :=
        match limit with
        | some l => if l ≠ 0 then rev.take l else rev
        | none => rev
      (out, s)

/-- `DataProcessor.get_recent_readings`: walk the ring backwards,
stopping at the first reading older than `now - minutes`. -/
def get_recent_readings (s : ProcState) (id : String) (minutes now : ℚ) :
    List SensorReading × ProcState :=
  let cutoff := now - minutes * 60
  match alookup s.sensor_data id with
  | none => ([], s)
  | some rs => (rs.reverse.takeWhile (fun r => cutoff ≤ r.timestamp), s)

/-- The numeric values of active readings
(`reading.status.value == 'active' and reading.is_numeric()`). -/
def activeValues (rs : List SensorReading) : List ℚ :=
  (rs.filter (fun r => r.status.value == "active" && r.is_numeric)).map (·.value)

/-- The statistics computation of `DataProcessor.get_sensor_statistics`
(the part after the cache check), over the readings currently in the
ring.  `statistics.stdev` is modelled with `Rat.sqrt`, an exact square
root whenever the sample variance is a square (as in every concrete
instance of this development).  Returns `none` when there are no active
numeric values (the empty dict). -/
def computeStats (rs : List SensorReading) (id : String) (now : ℚ) :
    Option Stats :=
  let values := activeValues rs
  if values.isEmpty then none
  else
    let trendPair : Option String × Option ℚ :=
      if 5 ≤ values.length then
        let recentAvg := meanq (lastN 5 values)
        let olderAvg :=
          if 10 ≤ values.length then meanq ((values.drop (values.length - 10)).take 5)
          else recentAvg
        let t :=
          if recentAvg > olderAvg * (105 / 100) then "increasing"
          else if recentAvg < olderAvg * (95 / 100) then "decreasing"
          else "stable"
        let ch :=
          if olderAvg ≠ 0 then roundq 2 ((recentAvg - olderAvg) / olderAvg * 100)
          else 0
        (some t, some ch)
      else (none, none)
    some
      { sensor_id := id
        total_readings := rs.length
        active_readings := values.length
        min_value := listMin values
        max_value := listMax values
        average := roundq 2 (meanq values)
        median := roundq 2 (medianq values)
        latest_value := values.getLastD 0
        unit := match rs.getLast? with | some r => r.unit | none => ""
        calculation_time := now
        std_deviation :=
          if 1 < values.length then some (roundq 2 (Rat.sqrt (sampleVariance values)))
          else none
        variance :=
          if 1 < values.length then some (roundq 2 (sampleVariance values))
          else none
        trend := trendPair.1
        trend_change := trendPair.2 }

/-- `DataProcessor._is_cache_valid`. -/
def is_cache_valid (s : ProcState) (id : String) (now : ℚ) : Bool :=
  match alookup s.stats_cache id, alookup s.cache_expiry id with
  | some _, some e => now < e
  | _, _ => false

/-- `DataProcessor.get_sensor_statistics`: serve from the cache when
valid and requested, otherwise recompute over the ring and refresh the
cache entry (expiry `now + cache_duration`); returns the empty result
(without caching) for a missing or empty ring or no active values. -/
def get_sensor_statistics (s : ProcState) (id : String) (now : ℚ)
    (use_cache : Bool) : Option Stats × ProcState :=
  if use_cache && is_cache_valid s id now then (alookup s.stats_cache id, s)
  else
    match alookup s.sensor_data id with
    | none => (none, s)
    | some rs =>
        if rs.isEmpty then (none, s)
        else
          match computeStats rs id now with
          | none => (none, s)
          | some st =>
              (some st,
                { s with
                    stats_cache := aupdate s.stats_cache id st
                    cache_expiry := aupdate s.cache_expiry id (now + s.cache_duration) })

/-! ### Broadcast server (`websocket/websocket_app.py`) -/

/-- The server state relevant to `broadcast_sensor_data`: the set of
connected clients (modelled by opaque string handles) and the owned
data processor. -/
structure ServerState where
  connected_clients : List String
  processor : ProcState

/-- `WebSocketServer.broadcast_sensor_data`: returns immediately when no
client is connected; otherwise stores the reading in the processor and
sends it to every client, removing the clients whose send failed
(`sendOk` models per-client transport success).  The second component is
the list of clients the message was delivered to. -/
def broadcast_sensor_data (sendOk : String → Bool) (s : ServerState)
    (r : SensorReading) (now : ℚ) : ServerState × List String :=
  if s.connected_clients.isEmpty then (s, [])
  else
    let p' := (store_reading s.processor r now).2
    let delivered := s.connected_clients.filter sendOk
    ({ connected_clients := delivered, processor := p' }, delivered)

/-! ### Sensors (`sensors/sensor_simulator.py`) -/

/-- The state of a `BaseSensor`. -/
structure SensorCore where
  sensor_id : String
  location : String
  name : String
  is_active : Bool
  last_reading_time : Option ℚ
  reading_count : Nat
  metadata : List (String × String)
deriving DecidableEq, Repr

/-- `BaseSensor.read`, with the subclass `_generate_reading` call
abstracted into its outcome `genResult` (`Except.error` models a raised
exception, caught by the surrounding `try`). -/
def sensorRead (c : SensorCore) (stype : SensorType) (u : String)
    (genResult : Except String ℚ) (now : ℚ) : SensorCore × SensorReading :=
  if !c.is_active then
    (c,
      { sensor_id := c.sensor_id, sensor_type := stype, value := 0, unit := u
        status := .inactive, timestamp := now, location := c.location
        name := c.name, reading_count := c.reading_count, metadata := [] })
  else
    match genResult with
    | .ok v =>
        let cnt := c.reading_count + 1
        let md := aupdate c.metadata "total_readings" (toString cnt)
        ({ c with last_reading_time := some now, reading_count := cnt, metadata := md },
          { sensor_id := c.sensor_id, sensor_type := stype, value := v, unit := u
            status := .active, timestamp := now, location := c.location
            name := c.name, reading_count := cnt, metadata := md })
    | .error e =>
        let md := aupdate c.metadata "last_error" e
        ({ c with metadata := md },
          { sensor_id := c.sensor_id, sensor_type := stype, value := 0, unit := u
            status := .error, timestamp := now, location := c.location
            name := c.name, reading_count := c.reading_count
            metadata := [("error", e)] })

/-- The generation state of a `TemperatureSensor`. -/
structure TempState where
  base_temperature : ℚ
  variation : ℚ
  current_trend : ℚ
  trend_duration : Int
  daily_cycle_position : ℚ
deriving DecidableEq, Repr

/-- The random draws consumed by one call of
`TemperatureSensor._generate_reading`.  `sinVal` is the oracle value of
`math.sin(math.radians(daily_cycle_position))`, constrained to `[-1, 1]`
in the theorems; the others are the `random.uniform` / `random.randint`
draws with their documented ranges as hypotheses. -/
structure TempDraws where
  sinVal : ℚ
  trendDraw : ℚ
  durationDraw : Int
  noiseDraw : ℚ
  driftDraw : ℚ
deriving DecidableEq, Repr

/-- `TemperatureSensor._generate_reading`: daily-cycle term, persistent
trend resampled when its duration runs out, uniform noise, clamp to
`[base - variation, base + variation]`, base drift, and rounding of the
result to one decimal. -/
def temp_generate (t : TempState) (d : TempDraws) : TempState × ℚ :=
  let daily_variation := d.sinVal * 3
  let pos' := t.daily_cycle_position + 1 / 2
  let trendPair :=
    if t.trend_duration ≤ 0 then (d.trendDraw, d.durationDraw)
    else (t.current_trend, t.trend_duration)
  let dur' := trendPair.2 - 1
  let temperature := t.base_temperature + daily_variation + trendPair.1 + d.noiseDraw
  let tLo := max temperature (t.base_temperature - t.variation)
  let tHi := min tLo (t.base_temperature + t.variation)
  let base' := t.base_temperature + d.driftDraw
  ({ base_temperature := base', variation := t.variation,
     current_trend := trendPair.1, trend_duration := dur',
     daily_cycle_position := pos' }, roundq 1 tHi)

/-- `TemperatureSensor.read`: `BaseSensor.read` with `_generate_reading`
given by `temp_generate` (which never raises); the generation state is
not touched when the sensor is inactive. -/
def temperatureRead (c : SensorCore) (t : TempState) (d : TempDraws) (now : ℚ) :
    (SensorCore × TempState) × SensorReading :=
  if c.is_active then
    let g := temp_generate t d
    let cr := sensorRead c .temperature "°C" (.ok g.2) now
    ((cr.1, g.1), cr.2)
  else
    let cr := sensorRead c .temperature "°C" (.ok 0) now
    ((cr.1, t), cr.2)

/-! ### Shared concrete instances -/

/-- An active numeric reading, as produced by a sensor. -/
def mkActiveReading (id : String) (v ts : ℚ) : SensorReading :=
  { sensor_id := id, sensor_type := .temperature, value := v, unit := "C"
    status := .active, timestamp := ts, location := "L", name := "N"
    reading_count := 0, metadata := [] }

/-- A processor that has stored exactly the active readings 10, 20, 30
for sensor `s1`. -/
def proc3 : ProcState :=
  storeAll (initProcessor 1000)
    [(mkActiveReading "s1" 10 0, 0), (mkActiveReading "s1" 20 0, 0),
     (mkActiveReading "s1" 30 0, 0)]

/-! ### Association-list lemmas -/

theorem alookup_aupdate_self {α : Type} (m : List (String × α)) (k : String) (v : α) :
    alookup (aupdate m k v) k = some v := by
  induction m with
  | nil => simp [aupdate, alookup]
  | cons p rest ih =>
      obtain ⟨k', v'⟩ := p
      by_cases h : k' = k
      · simp [aupdate, alookup, h]
      · simp [aupdate, alookup, h, ih]

theorem alookup_aremove_self {α : Type} (m : List (String × α)) (k : String) :
    alookup (aremove m k) k = none := by
  induction m with
  | nil => rfl
  | cons p rest ih =>
      obtain ⟨k', v'⟩ := p
      by_cases h : k' = k
      · simpa [aremove, alookup, h] using ih
      · simpa [aremove, alookup, h] using ih

/-! ### Ring-buffer lemmas -/

theorem lastN_of_le {α : Type} {m : Nat} {l : List α} (h : l.length ≤ m) :
    lastN m l = l := by
  simp [lastN, Nat.sub_eq_zero_of_le h]

theorem length_lastN {α : Type} (m : Nat) (l : List α) (h : m ≤ l.length) :
    (lastN m l).length = m := by
  simp [lastN]
  omega

theorem ringAppend_eq_lastN {α : Type} (m : Nat) (buf : List α) (x : α) :
    ringAppend m buf x = lastN m (buf ++ [x]) := by
  simp [ringAppend, lastN]

theorem length_ringAppend_le {α : Type} (m : Nat) (buf : List α) (x : α) :
    (ringAppend m buf x).length ≤ m := by
  simp [ringAppend]
  omega

theorem lastN_append {α : Type} (m : Nat) (l xs : List α) :
    lastN m (lastN m l ++ xs) = lastN m (l ++ xs) := by
  rcases Nat.lt_or_ge l.length m with hlt | hge
  · rw [lastN_of_le (Nat.le_of_lt hlt)]
  · have hj : l.length - m ≤ l.length := Nat.sub_le _ _
    simp only [lastN, List.length_append, List.length_drop,
      List.drop_append_eq_append_drop, List.drop_drop]
    congr 1 <;> congr 1 <;> omega

theorem foldl_ringAppend {α : Type} (m : Nat) (xs : List α) :
    ∀ acc : List α, acc.length ≤ m →
      xs.foldl (ringAppend m) acc = lastN m (acc ++ xs) := by
  induction xs with
  | nil => intro acc h; simpa using (lastN_of_le h).symm
  | cons x xs ih =>
      intro acc h
      rw [List.foldl_cons, ih _ (length_ringAppend_le m acc x),
        ringAppend_eq_lastN, lastN_append]
      simp

/-! ### Store lemmas -/

theorem store_reading_ring (s : ProcState) (r : SensorReading) (now : ℚ) :
    alookup (store_reading s r now).2.sensor_data r.sensor_id
      = some (ringAppend s.max_readings
          ((alookup s.sensor_data r.sensor_id).getD []) r) := by
  simp [store_reading, alookup_aupdate_self]

theorem store_reading_max (s : ProcState) (r : SensorReading) (now : ℚ) :
    (store_reading s r now).2.max_readings = s.max_readings := rfl

theorem storeAll_ring (id : String) (ps : List (SensorReading × ℚ)) :
    ∀ s : ProcState, (∀ p ∈ ps, p.1.sensor_id = id) →
      (alookup (storeAll s ps).sensor_data id).getD []
        = (ps.map Prod.fst).foldl (ringAppend s.max_readings)
            ((alookup s.sensor_data id).getD []) := by
  induction ps with
  | nil => intro s _; simp [storeAll]
  | cons p ps ih =>
      intro s hall
      have hid : p.1.sensor_id = id := hall p (by simp)
      have hrest : ∀ q ∈ ps, q.1.sensor_id = id := fun q hq => hall q (by simp [hq])
      have hstep := ih ((store_reading s p.1 p.2).2) hrest
      have hring := store_reading_ring s p.1 p.2
      rw [hid] at hring
      simp only [storeAll, List.foldl_cons] at hstep ⊢
      rw [hstep, store_reading_max, hring]
      simp

/-! ### C1 — broadcast with zero connected clients -/

/-- C1 counterexample: with zero connected clients, broadcasting a
reading does NOT grow the processor's history for that sensor by one
entry — the history stays empty, refuting the claim at this input. -/
theorem broadcast_empty_clients_skips_store_cex :
    (⟨[], initProcessor 1000⟩ : ServerState).connected_clients = []
    ∧ ((alookup (broadcast_sensor_data (fun _ => true)
          ⟨[], initProcessor 1000⟩ (mkActiveReading "s1" 10 0) 0).1.processor.sensor_data
          "s1").getD []).length = 0
    ∧ ¬ (((alookup (broadcast_sensor_data (fun _ => true)
          ⟨[], initProcessor 1000⟩ (mkActiveReading "s1" 10 0) 0).1.processor.sensor_data
          "s1").getD []).length
        = ((alookup (initProcessor 1000).sensor_data "s1").getD []).length + 1) := by
  refine ⟨rfl, rfl, by decide⟩

/-- C1 (amended): `broadcast_sensor_data` with zero connected clients
returns immediately — it sends nothing to any client AND does not store
the reading in the Data Processor; the whole server state, the
processor's history included, is unchanged. -/
theorem broadcast_empty_clients_noop (sendOk : String → Bool) (s : ServerState)
    (r : SensorReading) (now : ℚ) (h : s.connected_clients = []) :
    broadcast_sensor_data sendOk s r now = (s, []) := by
  simp [broadcast_sensor_data, h]

theorem broadcast_empty_clients_noop_witness :
    (⟨[], initProcessor 1000⟩ : ServerState).connected_clients = []
    ∧ broadcast_sensor_data (fun _ => true) ⟨[], initProcessor 1000⟩
        (mkActiveReading "s1" 10 0) 0 = (⟨[], initProcessor 1000⟩, []) :=
  ⟨rfl, broadcast_empty_clients_noop (fun _ => true) ⟨[], initProcessor 1000⟩
    (mkActiveReading "s1" 10 0) 0 rfl⟩

/-! ### C2 — threshold alerts -/

/-- C2: for a reading whose sensor type has both bounds configured with
`low ≤ high`: a value strictly above the high bound raises exactly one
alert, of kind `high_threshold`; a value strictly below the low bound
raises exactly one alert, of kind `low_threshold`; a value between the
bounds (inclusive) raises none.  The two bounds are checked
independently: were both satisfied at once, two distinct alerts would be
appended; and `store_reading` appends exactly the alerts of
`_check_alerts` to the processor's alert list. -/
theorem check_alerts_thresholds (tb : SensorType → Thresholds)
    (r : SensorReading) (now hi lo : ℚ)
    (hth : tb r.sensor_type = { high := some hi, low := some lo }) :
    (lo ≤ hi → hi < r.value →
      (checkAlerts tb r now).map AlertEvent.alert_type = ["high_threshold"])
    ∧ (lo ≤ hi → r.value < lo →
      (checkAlerts tb r now).map AlertEvent.alert_type = ["low_threshold"])
    ∧ (lo ≤ r.value → r.value ≤ hi → checkAlerts tb r now = [])
    ∧ (hi < r.value → r.value < lo →
      (checkAlerts tb r now).map AlertEvent.alert_type
        = ["high_threshold", "low_threshold"])
    ∧ (∀ s : ProcState, s.alert_thresholds = tb →
      (store_reading s r now).2.alerts = s.alerts ++ checkAlerts tb r now) := by
  refine ⟨?_, ?_, ?_, ?_, ?_⟩
  · intro hle hv
    have hnl : ¬ r.value < lo := by linarith
    simp [checkAlerts, hth, SensorReading.is_numeric, hv, hnl, mkAlert]
  · intro hle hv
    have hnh : ¬ hi < r.value := by linarith
    simp [checkAlerts, hth, SensorReading.is_numeric, hv, hnh, mkAlert]
  · intro h1 h2
    have hnh : ¬ hi < r.value := not_lt.mpr h2
    have hnl : ¬ r.value < lo := not_lt.mpr h1
    simp [checkAlerts, hth, SensorReading.is_numeric, hnh, hnl]
  · intro hv hl
    simp [checkAlerts, hth, SensorReading.is_numeric, hv, hl, mkAlert]
  · intro s hs
    simp [store_reading, hs]

theorem check_alerts_thresholds_witness :
    defaultThresholds (mkActiveReading "s1" 30 0).sensor_type
        = { high := some 28, low := some 15 }
    ∧ (checkAlerts defaultThresholds (mkActiveReading "s1" 30 0) 0).map
        AlertEvent.alert_type = ["high_threshold"] :=
  ⟨rfl, (check_alerts_thresholds defaultThresholds (mkActiveReading "s1" 30 0)
      0 28 15 rfl).1 (by norm_num) (by decide)⟩

/-! ### C3 — bounded per-sensor history ring -/

/-- C3: storing `N > max_readings_per_sensor` readings for one sensor
into a fresh processor leaves exactly `max` entries for it: the ring's
content is the stored sequence with its oldest `N − max` entries
dropped, i.e. the most recent `max` readings in insertion order. -/
theorem ring_bounded_history (m : Nat) (id : String)
    (ps : List (SensorReading × ℚ))
    (hids : ∀ p ∈ ps, p.1.sensor_id = id) (hlen : m < ps.length) :
    (alookup (storeAll (initProcessor m) ps).sensor_data id).getD []
        = (ps.map Prod.fst).drop (ps.length - m)
    ∧ ((alookup (storeAll (initProcessor m) ps).sensor_data id).getD []).length
        = m := by
  have h1 := storeAll_ring id ps (initProcessor m) hids
  have h0 : ((alookup (initProcessor m).sensor_data id).getD []
      : List SensorReading) = [] := rfl
  have hm : (initProcessor m).max_readings = m := rfl
  rw [h0, hm] at h1
  rw [foldl_ringAppend m (ps.map Prod.fst) [] (by simp)] at h1
  simp only [List.nil_append] at h1
  constructor
  · rw [h1]
    simp [lastN]
  · rw [h1, length_lastN]
    simp
    omega

theorem ring_bounded_history_witness :
    ((alookup (storeAll (initProcessor 2)
        [(mkActiveReading "s1" 10 0, 0), (mkActiveReading "s1" 20 0, 0),
         (mkActiveReading "s1" 30 0, 0)]).sensor_data "s1").getD []
      = ([mkActiveReading "s1" 10 0, mkActiveReading "s1" 20 0,
          mkActiveReading "s1" 30 0].drop 1))
    ∧ ((alookup (storeAll (initProcessor 2)
        [(mkActiveReading "s1" 10 0, 0), (mkActiveReading "s1" 20 0, 0),
         (mkActiveReading "s1" 30 0, 0)]).sensor_data "s1").getD []).length = 2 := by
  have h := ring_bounded_history 2 "s1"
    [(mkActiveReading "s1" 10 0, 0), (mkActiveReading "s1" 20 0, 0),
     (mkActiveReading "s1" 30 0, 0)] (by decide) (by decide)
  exact ⟨h.1, h.2⟩

/-! ### C4 — inactive sensors -/

/-- C4: when a sensor's `is_active` flag is false, `read()` is
independent of the generation algorithm's outcome (it is not invoked),
returns a reading with status Inactive and value 0, and leaves the whole
sensor state — the reading counter included — unchanged. -/
theorem read_inactive_frame (c : SensorCore) (stype : SensorType) (u : String)
    (g g' : Except String ℚ) (now : ℚ) (h : c.is_active = false) :
    sensorRead c stype u g now = sensorRead c stype u g' now
    ∧ (sensorRead c stype u g now).1 = c
    ∧ (sensorRead c stype u g now).2.status = .inactive
    ∧ (sensorRead c stype u g now).2.value = 0
    ∧ (sensorRead c stype u g now).1.reading_count = c.reading_count := by
  refine ⟨?_, ?_, ?_, ?_, ?_⟩ <;> simp [sensorRead, h]

theorem read_inactive_frame_witness :
    (⟨"t", "L", "N", false, none, 7, []⟩ : SensorCore).is_active = false
    ∧ sensorRead ⟨"t", "L", "N", false, none, 7, []⟩ .temperature "°C" (.ok 25) 0
        = sensorRead ⟨"t", "L", "N", false, none, 7, []⟩ .temperature "°C"
            (.error "boom") 0
    ∧ (sensorRead ⟨"t", "L", "N", false, none, 7, []⟩ .temperature "°C"
        (.ok 25) 0).2.status = .inactive
    ∧ (sensorRead ⟨"t", "L", "N", false, none, 7, []⟩ .temperature "°C"
        (.ok 25) 0).2.value = 0
    ∧ (sensorRead ⟨"t", "L", "N", false, none, 7, []⟩ .temperature "°C"
        (.ok 25) 0).1.reading_count = 7 := by
  have h := read_inactive_frame ⟨"t", "L", "N", false, none, 7, []⟩ .temperature
    "°C" (.ok 25) (.error "boom") 0 rfl
  exact ⟨rfl, h.1, h.2.2.1, h.2.2.2.1, h.2.2.2.2⟩

/-! ### C9 — generation faults -/

/-- C9: when the generation algorithm raises during an active `read()`,
the call still returns (the exception is caught): the reading has status
Error, value 0, and the fault message recorded under the `error` key of
its metadata, and the sensor's reading counter is not incremented. -/
theorem read_error_frame (c : SensorCore) (stype : SensorType) (u e : String)
    (now : ℚ) (h : c.is_active = true) :
    (sensorRead c stype u (.error e) now).2.status = .error
    ∧ (sensorRead c stype u (.error e) now).2.value = 0
    ∧ (sensorRead c stype u (.error e) now).2.metadata = [("error", e)]
    ∧ (sensorRead c stype u (.error e) now).1.reading_count = c.reading_count := by
  refine ⟨?_, ?_, ?_, ?_⟩ <;> simp [sensorRead, h]

theorem read_error_frame_witness :
    (⟨"t", "L", "N", true, none, 7, []⟩ : SensorCore).is_active = true
    ∧ (sensorRead ⟨"t", "L", "N", true, none, 7, []⟩ .temperature "°C"
        (.error "boom") 0).2.status = .error
    ∧ (sensorRead ⟨"t", "L", "N", true, none, 7, []⟩ .temperature "°C"
        (.error "boom") 0).2.value = 0
    ∧ (sensorRead ⟨"t", "L", "N", true, none, 7, []⟩ .temperature "°C"
        (.error "boom") 0).2.metadata = [("error", "boom")]
    ∧ (sensorRead ⟨"t", "L", "N", true, none, 7, []⟩ .temperature "°C"
        (.error "boom") 0).1.reading_count = 7 := by
  have h := read_error_frame ⟨"t", "L", "N", true, none, 7, []⟩ .temperature
    "°C" "boom" 0 rfl
  exact ⟨rfl, h.1, h.2.1, h.2.2.1, h.2.2.2⟩

/-! ### C8 — statistics on readings 10, 20, 30 -/

theorem roundq_intCast (k : Nat) (n : ℤ) : roundq k ((n : ℚ)) = (n : ℚ) := by
  unfold roundq
  rw [show ((n : ℚ) * 10 ^ k) = (((n * 10 ^ k : ℤ)) : ℚ) by push_cast; ring]
  rw [round_intCast]
  push_cast
  rw [mul_div_assoc, div_self (by positivity), mul_one]

/-- C8: a sensor whose stored active numeric readings are exactly
[10, 20, 30] reports min 10, max 30, average 20 and median 20. -/
theorem stats_10_20_30 :
    ((get_sensor_statistics proc3 "s1" 0 true).1.map Stats.min_value = some 10)
    ∧ ((get_sensor_statistics proc3 "s1" 0 true).1.map Stats.max_value = some 30)
    ∧ ((get_sensor_statistics proc3 "s1" 0 true).1.map Stats.average = some 20)
    ∧ ((get_sensor_statistics proc3 "s1" 0 true).1.map Stats.median = some 20) := by
  have havg : (get_sensor_statistics proc3 "s1" 0 true).1.map Stats.average
      = some (roundq 2 (meanq [(10 : ℚ), 20, 30])) := rfl
  have hmed : (get_sensor_statistics proc3 "s1" 0 true).1.map Stats.median
      = some (roundq 2 (medianq [(10 : ℚ), 20, 30])) := rfl
  have hm : meanq [(10 : ℚ), 20, 30] = 20 := by norm_num [meanq]
  have hd : medianq [(10 : ℚ), 20, 30] = 20 := by
    norm_num [medianq, sortAsc, insertAsc]
  have h20 : roundq 2 (20 : ℚ) = 20 := by
    rw [show (20 : ℚ) = ((20 : ℤ) : ℚ) by norm_num, roundq_intCast]
  refine ⟨rfl, rfl, ?_, ?_⟩
  · rw [havg, hm, h20]
  · rw [hmed, hd, h20]

/-! ### C10 — queries on an unknown sensor id -/

/-- C10: for a sensor id the processor knows nothing about (no ring, no
cache entry), the history, recent and statistics queries each return an
empty result and leave the processor state entirely unchanged — in
particular no ring buffer, metadata entry or cache entry is created. -/
theorem query_unknown_sensor_frame (s : ProcState) (id : String)
    (lim : Option Nat) (minutes now t : ℚ) (uc : Bool)
    (hd : alookup s.sensor_data id = none)
    (hc : alookup s.stats_cache id = none) :
    get_sensor_history s id lim = ([], s)
    ∧ get_recent_readings s id minutes now = ([], s)
    ∧ get_sensor_statistics s id t uc = (none, s) := by
  refine ⟨?_, ?_, ?_⟩
  · simp [get_sensor_history, hd]
  · simp [get_recent_readings, hd]
  · simp [get_sensor_statistics, is_cache_valid, hc, hd]

theorem query_unknown_sensor_frame_witness :
    get_sensor_history (initProcessor 5) "ghost" (some 10) = ([], initProcessor 5)
    ∧ get_recent_readings (initProcessor 5) "ghost" 10 0 = ([], initProcessor 5)
    ∧ get_sensor_statistics (initProcessor 5) "ghost" 0 true
        = (none, initProcessor 5) :=
  query_unknown_sensor_frame (initProcessor 5) "ghost" (some 10) 10 0 0 true rfl rfl

/-! ### C5 — temperature values vs the clamp interval -/

theorem roundq_one_close (x : ℚ) : |roundq 1 x - x| ≤ 1 / 20 := by
  have h := abs_sub_round (x * (10 : ℚ) ^ 1)
  have h2 : roundq 1 x - x
      = -((x * (10 : ℚ) ^ 1 - (round (x * (10 : ℚ) ^ 1) : ℚ)) / (10 : ℚ) ^ 1) := by
    rw [roundq]; ring
  rw [h2, abs_neg, abs_div, abs_of_pos (show (0 : ℚ) < (10 : ℚ) ^ 1 by norm_num)]
  rw [div_le_iff₀ (by norm_num : (0 : ℚ) < (10 : ℚ) ^ 1)]
  nlinarith [h]

theorem temp_generate_bounds (t : TempState) (d : TempDraws)
    (hv : 0 ≤ t.variation) :
    t.base_temperature - t.variation - 1 / 20 ≤ (temp_generate t d).2
    ∧ (temp_generate t d).2 ≤ t.base_temperature + t.variation + 1 / 20 := by
  obtain ⟨raw, hraw⟩ : ∃ raw, (temp_generate t d).2
      = roundq 1 (min (max raw (t.base_temperature - t.variation))
          (t.base_temperature + t.variation)) := ⟨_, rfl⟩
  have h1 : t.base_temperature - t.variation
      ≤ min (max raw (t.base_temperature - t.variation))
          (t.base_temperature + t.variation) :=
    le_min (le_max_right _ _) (by linarith)
  have h2 : min (max raw (t.base_temperature - t.variation))
      (t.base_temperature + t.variation) ≤ t.base_temperature + t.variation :=
    min_le_right _ _
  have h3 := abs_le.mp (roundq_one_close (min (max raw
    (t.base_temperature - t.variation)) (t.base_temperature + t.variation)))
  rw [hraw]
  constructor <;> linarith [h3.1, h3.2]

theorem temperatureRead_value (c : SensorCore) (t : TempState) (d : TempDraws)
    (now : ℚ) (ha : c.is_active = true) :
    ((temperatureRead c t d now).2).value = (temp_generate t d).2 := by
  simp [temperatureRead, ha, sensorRead]

/-- C5 counterexample: a temperature sensor with `base_temp = 22` and
`variation = 0.06`, its daily-cycle position at 90 degrees (where
`sin` is exactly 1) and in-range random draws.  The raw value clamps to
`22.06 = base + variation`, but the final rounding to one decimal lifts
it to `22.1`, outside `[base − variation, base + variation]` — refuting
the claim that every successful read lies within that closed interval. -/
theorem temp_value_interval_cex :
    ((⟨"t", "L", "N", true, none, 0, []⟩ : SensorCore).is_active = true)
    ∧ ((0 : ℚ) ≤ (⟨22, 6 / 100, 0, 0, 90⟩ : TempState).variation)
    ∧ (-1 ≤ (⟨1, 49 / 100, 10, 29 / 100, 0⟩ : TempDraws).sinVal
        ∧ (⟨1, 49 / 100, 10, 29 / 100, 0⟩ : TempDraws).sinVal ≤ 1)
    ∧ (-(1 / 2) ≤ (⟨1, 49 / 100, 10, 29 / 100, 0⟩ : TempDraws).trendDraw
        ∧ (⟨1, 49 / 100, 10, 29 / 100, 0⟩ : TempDraws).trendDraw ≤ 1 / 2)
    ∧ (5 ≤ (⟨1, 49 / 100, 10, 29 / 100, 0⟩ : TempDraws).durationDraw
        ∧ (⟨1, 49 / 100, 10, 29 / 100, 0⟩ : TempDraws).durationDraw ≤ 15)
    ∧ (-(3 / 10) ≤ (⟨1, 49 / 100, 10, 29 / 100, 0⟩ : TempDraws).noiseDraw
        ∧ (⟨1, 49 / 100, 10, 29 / 100, 0⟩ : TempDraws).noiseDraw ≤ 3 / 10)
    ∧ (-(1 / 50) ≤ (⟨1, 49 / 100, 10, 29 / 100, 0⟩ : TempDraws).driftDraw
        ∧ (⟨1, 49 / 100, 10, 29 / 100, 0⟩ : TempDraws).driftDraw ≤ 1 / 50)
    ∧ ((temperatureRead ⟨"t", "L", "N", true, none, 0, []⟩ ⟨22, 6 / 100, 0, 0, 90⟩
          ⟨1, 49 / 100, 10, 29 / 100, 0⟩ 0).2.value = 221 / 10)
    ∧ ¬ ((temperatureRead ⟨"t", "L", "N", true, none, 0, []⟩ ⟨22, 6 / 100, 0, 0, 90⟩
          ⟨1, 49 / 100, 10, 29 / 100, 0⟩ 0).2.value
        ≤ (⟨22, 6 / 100, 0, 0, 90⟩ : TempState).base_temperature
          + (⟨22, 6 / 100, 0, 0, 90⟩ : TempState).variation) := by
  have hval : (temperatureRead ⟨"t", "L", "N", true, none, 0, []⟩
      ⟨22, 6 / 100, 0, 0, 90⟩ ⟨1, 49 / 100, 10, 29 / 100, 0⟩ 0).2.value
      = 221 / 10 := by
    simp only [temperatureRead, sensorRead, temp_generate]
    norm_num [roundq, round_eq]
  refine ⟨rfl, by norm_num, ⟨by norm_num, by norm_num⟩, ⟨by norm_num, by norm_num⟩,
    ⟨by norm_num, by norm_num⟩, ⟨by norm_num, by norm_num⟩,
    ⟨by norm_num, by norm_num⟩, hval, ?_⟩
  rw [hval]
  norm_num

/-- C5 (amended): for an active temperature sensor with nonnegative
`variation`, every value produced by a successful read lies within the
clamp interval widened by the one-decimal rounding slack:
`[base − variation − 0.05, base + variation + 0.05]`, where `base` is the
sensor's base temperature at the time of the call (before the post-clamp
drift).  The original closed interval holds whenever the interval's
endpoints are representable at one decimal or the clamp does not bind
(in particular with the default `variation = 5`, since the pre-clamp
offset never exceeds `3 + 0.5 + 0.3 = 3.8`). -/
theorem temp_value_interval_amended (c : SensorCore) (t : TempState)
    (d : TempDraws) (now : ℚ) (ha : c.is_active = true) (hv : 0 ≤ t.variation) :
    t.base_temperature - t.variation - 1 / 20
        ≤ ((temperatureRead c t d now).2).value
    ∧ ((temperatureRead c t d now).2).value
        ≤ t.base_temperature + t.variation + 1 / 20 := by
  rw [temperatureRead_value c t d now ha]
  exact temp_generate_bounds t d hv

theorem temp_value_interval_amended_witness :
    ((⟨"t", "L", "N", true, none, 0, []⟩ : SensorCore).is_active = true)
    ∧ ((0 : ℚ) ≤ (⟨22, 5, 0, 0, 90⟩ : TempState).variation)
    ∧ ((⟨22, 5, 0, 0, 90⟩ : TempState).base_temperature
          - (⟨22, 5, 0, 0, 90⟩ : TempState).variation - 1 / 20
        ≤ ((temperatureRead ⟨"t", "L", "N", true, none, 0, []⟩ ⟨22, 5, 0, 0, 90⟩
            ⟨1, 49 / 100, 10, 29 / 100, 0⟩ 0).2).value)
    ∧ (((temperatureRead ⟨"t", "L", "N", true, none, 0, []⟩ ⟨22, 5, 0, 0, 90⟩
            ⟨1, 49 / 100, 10, 29 / 100, 0⟩ 0).2).value
        ≤ (⟨22, 5, 0, 0, 90⟩ : TempState).base_temperature
          + (⟨22, 5, 0, 0, 90⟩ : TempState).variation + 1 / 20) := by
  have h := temp_value_interval_amended ⟨"t", "L", "N", true, none, 0, []⟩
    ⟨22, 5, 0, 0, 90⟩ ⟨1, 49 / 100, 10, 29 / 100, 0⟩ 0 rfl (by norm_num)
  exact ⟨rfl, by norm_num, h.1, h.2⟩

/-! ### C7 — trend classification -/

/-- Mean of the last 5 values, as used by the trend computation. -/
def recentAvgOf (vs : List ℚ) : ℚ := meanq (lastN 5 vs)

/-- The baseline the code compares against: the mean of `values[-10:-5]`
when at least 10 values are available, and the recent mean itself
otherwise. -/
def olderAvgOf (vs : List ℚ) : ℚ :=
  if 10 ≤ vs.length then meanq ((vs.drop (vs.length - 10)).take 5)
  else recentAvgOf vs

/-- The trend word the code computes. -/
def trendWordOf (vs : List ℚ) : String :=
  if recentAvgOf vs > olderAvgOf vs * (105 / 100) then "increasing"
  else if recentAvgOf vs < olderAvgOf vs * (95 / 100) then "decreasing"
  else "stable"

/-- The percent change the code computes. -/
def trendChangeOf (vs : List ℚ) : ℚ :=
  if olderAvgOf vs ≠ 0 then roundq 2 ((recentAvgOf vs - olderAvgOf vs) / olderAvgOf vs * 100)
  else 0

/-- Claim-side trend classification, following the specification's words:
the mean of the last 5 values is compared against the mean of the
preceding 5 values, "or of the fewer preceding values when fewer than 5
are available", with the ±5% deadband. -/
def specTrendClass (vs : List ℚ) : String :=
  let recentAvg := meanq (lastN 5 vs)
  let olderAvg :=
    if 10 ≤ vs.length then meanq ((vs.drop (vs.length - 10)).take 5)
    else meanq (vs.take (vs.length - 5))
  if recentAvg > olderAvg * (105 / 100) then "increasing"
  else if recentAvg < olderAvg * (95 / 100) then "decreasing"
  else "stable"

/-- Seven active readings with values [1, 1, 10, 10, 10, 10, 10]. -/
def rs7cex : List SensorReading :=
  [mkActiveReading "s1" 1 0, mkActiveReading "s1" 1 0,
   mkActiveReading "s1" 10 0, mkActiveReading "s1" 10 0,
   mkActiveReading "s1" 10 0, mkActiveReading "s1" 10 0,
   mkActiveReading "s1" 10 0]

/-- C7 counterexample: with 7 active values [1, 1, 10, 10, 10, 10, 10],
the spec's comparison (recent mean 10 against the mean 1 of the two
preceding values) classifies the trend as `increasing`, but the code
compares the recent mean against itself whenever fewer than 10 values
are present and reports `stable` — refuting the "or of the fewer
preceding values" clause. -/
theorem trend_older_mean_cex :
    (activeValues rs7cex).length = 7
    ∧ ((computeStats rs7cex "s1" 0).map Stats.trend = some (some "stable"))
    ∧ specTrendClass (activeValues rs7cex) = "increasing"
    ∧ ((computeStats rs7cex "s1" 0).map Stats.trend
        ≠ some (some (specTrendClass (activeValues rs7cex)))) := by
  have hv : activeValues rs7cex = [1, 1, 10, 10, 10, 10, 10] := rfl
  have h1 : (activeValues rs7cex).length = 7 := rfl
  have h2 : (computeStats rs7cex "s1" 0).map Stats.trend = some (some "stable") := by
    simp only [computeStats, hv]
    norm_num [meanq, lastN]
  have h3 : specTrendClass (activeValues rs7cex) = "increasing" := by
    simp only [specTrendClass, hv]
    norm_num [meanq, lastN]
  refine ⟨h1, h2, h3, ?_⟩
  rw [h2, h3]
  simp

/-- C7 (amended): when at least 5 active numeric values are present, the
statistics result contains a trend classification and percent change,
obtained by comparing the mean of the last 5 values against the mean of
the 5 preceding values with a ±5% deadband when at least 10 values are
available; with fewer than 10 values the baseline is the recent mean
itself (not the mean of the fewer preceding values), so the percent
change is 0 and the trend is `stable` whenever the recent mean is
nonnegative. -/
theorem trend_amended (rs : List SensorReading) (id : String) (now : ℚ)
    (h5 : 5 ≤ (activeValues rs).length) :
    ((computeStats rs id now).map Stats.trend
        = some (some (trendWordOf (activeValues rs))))
    ∧ ((computeStats rs id now).map Stats.trend_change
        = some (some (trendChangeOf (activeValues rs))))
    ∧ ((activeValues rs).length < 10 →
        trendChangeOf (activeValues rs) = 0
        ∧ (0 ≤ recentAvgOf (activeValues rs) →
            trendWordOf (activeValues rs) = "stable")) := by
  have hne : (activeValues rs).isEmpty = false := by
    cases h : activeValues rs
    · rw [h] at h5; simp at h5
    · simp [h]
  refine ⟨?_, ?_, ?_⟩
  · simp [computeStats, hne, h5, trendWordOf, recentAvgOf, olderAvgOf]
  · simp [computeStats, hne, h5, trendChangeOf, recentAvgOf, olderAvgOf]
  · intro h10
    have hno : ¬ 10 ≤ (activeValues rs).length := by omega
    have ho : olderAvgOf (activeValues rs) = recentAvgOf (activeValues rs) := by
      simp [olderAvgOf, hno]
    constructor
    · by_cases hz : recentAvgOf (activeValues rs) = 0
      · simp [trendChangeOf, ho, hz]
      · have hrz : roundq 2 (0 : ℚ) = 0 := by simp [roundq]
        simp [trendChangeOf, ho, hz, hrz]
    · intro hpos
      have h1 : ¬ (recentAvgOf (activeValues rs)
          > recentAvgOf (activeValues rs) * (105 / 100)) := by linarith
      have h2 : ¬ (recentAvgOf (activeValues rs)
          < recentAvgOf (activeValues rs) * (95 / 100)) := by linarith
      simp [trendWordOf, ho, h1, h2]

theorem trend_amended_witness :
    (5 ≤ (activeValues rs7cex).length)
    ∧ ((computeStats rs7cex "s1" 0).map Stats.trend
        = some (some (trendWordOf (activeValues rs7cex))))
    ∧ ((computeStats rs7cex "s1" 0).map Stats.trend_change
        = some (some (trendChangeOf (activeValues rs7cex))))
    ∧ ((activeValues rs7cex).length < 10 →
        trendChangeOf (activeValues rs7cex) = 0
        ∧ (0 ≤ recentAvgOf (activeValues rs7cex) →
            trendWordOf (activeValues rs7cex) = "stable")) := by
  have h := trend_amended rs7cex "s1" 0 (by decide)
  exact ⟨by decide, h.1, h.2.1, h.2.2⟩

/-! ### C6 — statistics cache behaviour -/

theorem computeStats_none_time_free (rs : List SensorReading) (id : String)
    (t t' : ℚ) (h : computeStats rs id t = none) : computeStats rs id t' = none := by
  by_cases he : (activeValues rs).isEmpty <;> simp [computeStats, he] at h ⊢

theorem get_stats_of_cache_none (s : ProcState) (id : String) (t : ℚ)
    (hc : alookup s.stats_cache id = none) :
    (get_sensor_statistics s id t true).1
      = computeStats ((alookup s.sensor_data id).getD []) id t := by
  have hvalid : is_cache_valid s id t = false := by simp [is_cache_valid, hc]
  rcases hdata : alookup s.sensor_data id with _ | rs
  · simp [get_sensor_statistics, hvalid, hdata, computeStats, activeValues]
  · rcases rs with _ | ⟨a, as⟩
    · simp [get_sensor_statistics, hvalid, hdata, computeStats, activeValues]
    · rcases hcs : computeStats (a :: as) id t with _ | st <;>
        simp [get_sensor_statistics, hvalid, hdata, hcs]

theorem store_invalidates_cache (s : ProcState) (r : SensorReading) (ts : ℚ) :
    alookup (store_reading s r ts).2.stats_cache r.sensor_id = none := by
  rcases h : alookup s.stats_cache r.sensor_id with _ | st <;>
    simp [store_reading, h, alookup_aremove_self]

theorem get_stats_frame (s : ProcState) (id : String) (t : ℚ) (uc : Bool) :
    (get_sensor_statistics s id t uc).2.sensor_data = s.sensor_data
    ∧ (get_sensor_statistics s id t uc).2.max_readings = s.max_readings := by
  unfold get_sensor_statistics
  constructor <;> (repeat' split) <;> rfl

theorem stats_second_query_hit (s : ProcState) (id : String) (t1 t2 : ℚ)
    (hc : alookup s.stats_cache id = none)
    (hwithin : t2 - t1 < s.cache_duration) :
    (get_sensor_statistics ((get_sensor_statistics s id t1 true).2) id t2 true).1
      = (get_sensor_statistics s id t1 true).1 := by
  have hvalid1 : is_cache_valid s id t1 = false := by simp [is_cache_valid, hc]
  rcases hdata : alookup s.sensor_data id with _ | rs
  · have hQ1 : get_sensor_statistics s id t1 true = (none, s) := by
      simp [get_sensor_statistics, hvalid1, hdata]
    rw [hQ1, get_stats_of_cache_none s id t2 hc, hdata]
    simp [computeStats, activeValues]
  · rcases rs with _ | ⟨a, as⟩
    · have hQ1 : get_sensor_statistics s id t1 true = (none, s) := by
        simp [get_sensor_statistics, hvalid1, hdata]
      rw [hQ1, get_stats_of_cache_none s id t2 hc, hdata]
      simp [computeStats, activeValues]
    · rcases hcs : computeStats (a :: as) id t1 with _ | st
      · have hQ1 : get_sensor_statistics s id t1 true = (none, s) := by
          simp [get_sensor_statistics, hvalid1, hdata, hcs]
        rw [hQ1, get_stats_of_cache_none s id t2 hc, hdata]
        exact computeStats_none_time_free (a :: as) id t1 t2 hcs
      · have hQ1 : get_sensor_statistics s id t1 true
            = (some st,
              { s with
                  stats_cache := aupdate s.stats_cache id st
                  cache_expiry := aupdate s.cache_expiry id (t1 + s.cache_duration) }) := by
          simp [get_sensor_statistics, hvalid1, hdata, hcs]
        rw [hQ1]
        have hvalid2 : is_cache_valid
            { s with
                stats_cache := aupdate s.stats_cache id st
                cache_expiry := aupdate s.cache_expiry id (t1 + s.cache_duration) }
            id t2 = true := by
          simp only [is_cache_valid, alookup_aupdate_self]
          rw [decide_eq_true_eq]
          linarith
        simp [get_sensor_statistics, hvalid2, alookup_aupdate_self]

/-- C6 (amended): starting from a state with no cache entry for the
sensor (e.g. right after a store), a statistics query followed by a
second query strictly within `cache_duration` seconds and with no
intervening store returns the identical result (a cache hit — when the
entry instead expires between two queries the recomputation reproduces
the same statistical values over the unchanged ring but a fresh
`calculation_time`, so the full dicts differ).  Storing a reading for
the sensor between the two queries deletes that sensor's cache entry,
and the second query then recomputes over the current ring contents. -/
theorem stats_cache_amended (s : ProcState) (id : String) (t1 t2 ts : ℚ)
    (r : SensorReading) (hc : alookup s.stats_cache id = none)
    (hr : r.sensor_id = id) (hwithin : t2 - t1 < s.cache_duration) :
    ((get_sensor_statistics ((get_sensor_statistics s id t1 true).2) id t2 true).1
        = (get_sensor_statistics s id t1 true).1)
    ∧ (alookup (store_reading ((get_sensor_statistics s id t1 true).2) r
        ts).2.stats_cache id = none)
    ∧ ((get_sensor_statistics (store_reading ((get_sensor_statistics s id t1
        true).2) r ts).2 id t2 true).1
        = computeStats (ringAppend s.max_readings
            ((alookup s.sensor_data id).getD []) r) id t2) := by
  have hcn : alookup (store_reading ((get_sensor_statistics s id t1 true).2) r
      ts).2.stats_cache id = none := by
    have h := store_invalidates_cache ((get_sensor_statistics s id t1 true).2) r ts
    rw [hr] at h
    exact h
  refine ⟨stats_second_query_hit s id t1 t2 hc hwithin, hcn, ?_⟩
  rw [get_stats_of_cache_none _ id t2 hcn]
  have hring := store_reading_ring ((get_sensor_statistics s id t1 true).2) r ts
  rw [hr] at hring
  rw [hring, Option.getD_some, (get_stats_frame s id t1 true).1,
    (get_stats_frame s id t1 true).2]

theorem stats_cache_amended_witness :
    ((get_sensor_statistics ((get_sensor_statistics (initProcessor 3) "s1" 0
        true).2) "s1" 1 true).1
      = (get_sensor_statistics (initProcessor 3) "s1" 0 true).1)
    ∧ (alookup (store_reading ((get_sensor_statistics (initProcessor 3) "s1" 0
        true).2) (mkActiveReading "s1" 7 0) 0).2.stats_cache "s1" = none)
    ∧ ((get_sensor_statistics (store_reading ((get_sensor_statistics
        (initProcessor 3) "s1" 0 true).2) (mkActiveReading "s1" 7 0) 0).2 "s1"
        1 true).1
      = computeStats (ringAppend (initProcessor 3).max_readings
          ((alookup (initProcessor 3).sensor_data "s1").getD [])
          (mkActiveReading "s1" 7 0)) "s1" 1) :=
  stats_cache_amended (initProcessor 3) "s1" 0 1 0 (mkActiveReading "s1" 7 0)
    rfl rfl (by norm_num [initProcessor])

theorem get_stats_hit (s : ProcState) (id : String) (t : ℚ) (st : Stats) (e : ℚ)
    (h1 : alookup s.stats_cache id = some st)
    (h2 : alookup s.cache_expiry id = some e) (h3 : t < e) :
    get_sensor_statistics s id t true = (some st, s) := by
  have hvalid : is_cache_valid s id t = true := by
    simp only [is_cache_valid, h1, h2]
    rw [decide_eq_true_eq]
    exact h3
  simp [get_sensor_statistics, hvalid, h1]

theorem get_stats_compute_state (s : ProcState) (id : String) (t : ℚ)
    (hc : alookup s.stats_cache id = none) (rs : List SensorReading)
    (hdata : alookup s.sensor_data id = some rs) (st : Stats)
    (hcs : computeStats rs id t = some st) (hne : rs.isEmpty = false) :
    get_sensor_statistics s id t true
      = (some st,
        { s with
            stats_cache := aupdate s.stats_cache id st
            cache_expiry := aupdate s.cache_expiry id (t + s.cache_duration) }) := by
  have hvalid : is_cache_valid s id t = false := by simp [is_cache_valid, hc]
  simp [get_sensor_statistics, hvalid, hdata, hne, hcs]

theorem get_stats_expired (s : ProcState) (id : String) (t : ℚ) (e : ℚ)
    (h2 : alookup s.cache_expiry id = some e) (h3 : ¬ t < e) :
    is_cache_valid s id t = false := by
  rcases h1 : alookup s.stats_cache id with _ | st <;>
    simp [is_cache_valid, h1, h2, h3]

/-- The ring contents of `proc3` for sensor `s1`. -/
def ring3 : List SensorReading :=
  [mkActiveReading "s1" 10 0, mkActiveReading "s1" 20 0, mkActiveReading "s1" 30 0]

/-- C6 counterexample: with readings stored at time 0 and a statistics
query at time 0 (which caches the result with expiry 30), two further
queries at times 29 and 31 — within `cache_duration = 30` seconds of
each other, with `use_cache` true and no store between them — return
different results: the query at 29 is served from the cache
(`calculation_time` 0) while the entry has expired by 31, so the second
query recomputes and carries `calculation_time` 31.  This refutes the
claim that any two such queries return identical results. -/
theorem stats_cache_identical_cex :
    ((31 : ℚ) - 29 < 30)
    ∧ ((get_sensor_statistics ((get_sensor_statistics ((get_sensor_statistics
          proc3 "s1" 0 true).2) "s1" 29 true).2) "s1" 31 true).1
        ≠ (get_sensor_statistics ((get_sensor_statistics proc3 "s1" 0 true).2)
            "s1" 29 true).1) := by
  refine ⟨by norm_num, ?_⟩
  obtain ⟨st0, hcs0, hct0⟩ : ∃ st, computeStats ring3 "s1" 0 = some st
      ∧ st.calculation_time = 0 := ⟨_, rfl, rfl⟩
  obtain ⟨st2, hcs2, hct2⟩ : ∃ st, computeStats ring3 "s1" 31 = some st
      ∧ st.calculation_time = 31 := ⟨_, rfl, rfl⟩
  have hdur : proc3.cache_duration = 30 := rfl
  have hQ0 := get_stats_compute_state proc3 "s1" 0 rfl ring3 rfl st0 hcs0 rfl
  rw [hdur, zero_add] at hQ0
  rw [hQ0]
  dsimp only
  have hf1 : alookup (aupdate proc3.stats_cache "s1" st0) "s1" = some st0 :=
    alookup_aupdate_self _ _ _
  have hf2 : alookup (aupdate proc3.cache_expiry "s1" 30) "s1" = some 30 :=
    alookup_aupdate_self _ _ _
  have hQA := get_stats_hit
    { max_readings := proc3.max_readings, sensor_data := proc3.sensor_data,
        stats_cache := aupdate proc3.stats_cache "s1" st0,
        cache_expiry := aupdate proc3.cache_expiry "s1" 30,
        cache_duration := 30,
        sensor_metadata := proc3.sensor_metadata,
        total_readings := proc3.total_readings, alerts := proc3.alerts,
        alert_thresholds := proc3.alert_thresholds }
    "s1" 29 st0 30 hf1 hf2 (by norm_num)
  rw [hQA]
  dsimp only
  have hvalidB := get_stats_expired
    { max_readings := proc3.max_readings, sensor_data := proc3.sensor_data,
        stats_cache := aupdate proc3.stats_cache "s1" st0,
        cache_expiry := aupdate proc3.cache_expiry "s1" 30,
        cache_duration := 30,
        sensor_metadata := proc3.sensor_metadata,
        total_readings := proc3.total_readings, alerts := proc3.alerts,
        alert_thresholds := proc3.alert_thresholds }
    "s1" 31 30 hf2 (by norm_num)
  have hne3 : ring3.isEmpty = false := rfl
  have hdata3 : alookup proc3.sensor_data "s1" = some ring3 := rfl
  have hQB : (get_sensor_statistics
      { max_readings := proc3.max_readings, sensor_data := proc3.sensor_data,
        stats_cache := aupdate proc3.stats_cache "s1" st0,
        cache_expiry := aupdate proc3.cache_expiry "s1" 30,
        cache_duration := 30,
        sensor_metadata := proc3.sensor_metadata,
        total_readings := proc3.total_readings, alerts := proc3.alerts,
        alert_thresholds := proc3.alert_thresholds }
      "s1" 31 true).1 = some st2 := by
    simp only [get_sensor_statistics, hvalidB, Bool.and_false, Bool.true_and,
      Bool.false_eq_true, if_false, hdata3, hne3, hcs2]
  rw [hQB]
  intro h
  have hx : st2 = st0 := Option.some.inj h
  rw [hx, hct0] at hct2
  exact absurd hct2 (by norm_num)
